import Mathlib

/-!
Shallow embedding of the "Base the Shooter" arcade simulation core.

The engine logic is translated from src/lib/game/GameEngine.ts and the
adversary factory from the EnemyFactory source file.  The leaf entity
classes (Base, Enemy, CollisionDetector) are not part of the available
sources — only their call sites are — so those operations are modelled
from the specification, each marked with a doc comment starting
"Modelled from the spec:".

JavaScript numbers are modelled as rationals (ℚ) for geometry and as
integers (Int) for health, damage, score and millisecond timestamps —
every value the repository manipulates in those roles is an integer or
a small fraction, so no floating-point rounding is involved in the
claims.  JS Array.prototype.forEach combined with in-place splice is
modelled index-by-index with the visit-condition semantics of forEach
(an index beyond the current length is skipped; the arrays only shrink
during these loops), and Array.prototype.splice with an out-of-range
index leaves the array unchanged, exactly like List.eraseIdx.
-/

attribute [local semireducible] Rat.add Rat.sub Rat.mul

namespace Shooter

/-- A 2-D point in canvas coordinates. -/
structure Position where
  x : ℚ
  y : ℚ
  deriving DecidableEq, Repr

/-- The eight adversary archetype tags of types.ts (enum EnemyType). -/
inductive EnemyType where
  | starkent
  | scroll
  | zksyn
  | taiko
  | linea
  | op
  | arb
  | polygon
  deriving DecidableEq, Repr

/-- Archetype configuration record (interface EnemyConfig of types.ts). -/
structure EnemyConfig where
  type : EnemyType
  health : Int
  speed : ℚ
  imagePath : String
  width : ℚ
  height : ℚ
  canShoot : Bool
  shootInterval : Int
  level : Nat
  bulletsPerShot : Option Nat
  bulletSpeed : Option ℚ
  deriving DecidableEq, Repr

/-- Projectile record (interface Bullet of types.ts). -/
structure Bullet where
  x : ℚ
  y : ℚ
  vx : ℚ
  vy : ℚ
  width : ℚ
  height : ℚ
  isPlayerBullet : Bool
  damage : Int
  deriving DecidableEq, Repr

/-- Modelled from the spec: the defender ("Base") data record — position,
size, health, maxHealth, speed.  The Base class itself is not among the
sources; only these fields and the operations below are used by the
engine. -/
structure Base where
  x : ℚ
  y : ℚ
  width : ℚ
  height : ℚ
  health : Int
  maxHealth : Int
  speed : ℚ
  deriving DecidableEq, Repr

/-- Modelled from the spec: live adversary state — its archetype
configuration, position, last-shot timestamp and current health.  The
Enemy class is not among the sources. -/
structure Enemy where
  config : EnemyConfig
  x : ℚ
  y : ℚ
  lastShot : Int
  health : Int
  deriving DecidableEq, Repr

/-- GameState record (interface GameState of types.ts). -/
structure GameState where
  score : Int
  level : Nat
  playerHealth : Int
  maxPlayerHealth : Int
  isGameOver : Bool
  isPaused : Bool
  levelStartTime : Int
  levelDuration : Int
  deriving DecidableEq, Repr

/-- The whole engine state: the public fields of class GameEngine plus
its private lastSpawnTime / spawnInterval fields. -/
structure Engine where
  base : Base
  enemies : List Enemy
  bullets : List Bullet
  gameState : GameState
  canvasWidth : ℚ
  canvasHeight : ℚ
  lastSpawnTime : Int
  spawnInterval : Int
  deriving DecidableEq, Repr

/-- Modelled from the spec: the adversary shoot operation constructs a
projectile aimed at a target point with straight-line velocity scaled to
the archetype's bullet speed.  The Enemy class is not among the sources
and no claim depends on the constructed projectile's numeric fields, so
the construction is kept abstract as a parameter of the embedding. -/
structure ShootModel where
  mkBullet : Enemy → Position → Bullet

/-- The random choices consumed by one advance invocation: the index used
for uniform archetype selection and the randomized spawn coordinate
along the axis perpendicular to travel. -/
structure Oracle where
  pick : Nat
  spawnY : ℚ

/-- Wave-duration table of GameEngine.ts (levelDurations).  The source
record has keys 1..3 only; other keys are never looked up by the
engine, and are mapped to 0 here. -/
def levelDurations : Nat → Int
  | 1 => 30000
  | 2 => 60000
  | 3 => 40000
  | _ => 0

namespace Base

/-- Modelled from the spec: center-point accessor used for aiming. -/
def getCenter (b : Base) : Position :=
  ⟨b.x + b.width / 2, b.y + b.height / 2⟩

/-- Modelled from the spec: the defender damage operation subtracts from
health, clamping at 0. -/
def takeDamage (b : Base) (d : Int) : Base :=
  { b with health := max 0 (b.health - d) }

/-- Modelled from the spec: liveness predicate (health > 0). -/
def isAlive (b : Base) : Bool :=
  decide (0 < b.health)

end Base

namespace Enemy

/-- Modelled from the spec: per-tick adversary movement — the position is
decremented along its travel axis (x, toward the defender) by its
speed; the canvas dimensions are accepted, as at the call site, but the
movement does not depend on them. -/
def move (e : Enemy) (_cw _ch : ℚ) : Enemy :=
  { e with x := e.x - e.config.speed }

/-- Modelled from the spec: shoot-readiness predicate — only true when
the archetype can shoot and now − lastShotTimestamp ≥ shootInterval. -/
def canShoot (e : Enemy) (now : Int) : Bool :=
  e.config.canShoot && decide (e.config.shootInterval ≤ now - e.lastShot)

/-- Modelled from the spec: the adversary damage operation (the spec
states clamping only for the defender, so plain subtraction is used). -/
def takeDamage (e : Enemy) (d : Int) : Enemy :=
  { e with health := e.health - d }

/-- Modelled from the spec: liveness predicate (health > 0). -/
def isAlive (e : Enemy) : Bool :=
  decide (0 < e.health)

/-- Modelled from the spec: off-screen predicate — the adversary has
exited the play area on its travel axis (fully past the left edge). -/
def isOffScreen (e : Enemy) : Bool :=
  decide (e.x + e.config.width < 0)

/-- Modelled from the spec: adversary construction — positioned at the
play-area edge opposite the defender (x = canvas width), at a
randomized coordinate along the perpendicular axis, at the archetype's
full health. -/
def init (cfg : EnemyConfig) (cw _ch : ℚ) (spawnY : ℚ) : Enemy :=
  { config := cfg, x := cw, y := spawnY, lastShot := 0, health := cfg.health }

end Enemy

namespace CollisionDetector

/-- Axis-aligned bounding-box overlap, the strict-inequality rectangle
intersection test used by all three collision predicates.  Modelled from
the spec: the CollisionDetector class is not among the sources. -/
def rectsOverlap (ax ay aw ah cx cy cw ch : ℚ) : Bool :=
  decide (ax < cx + cw) && decide (cx < ax + aw) &&
    decide (ay < cy + ch) && decide (cy < ay + ah)

/-- Modelled from the spec: projectile-vs-adversary AABB test. -/
def bulletEnemyCollision (bl : Bullet) (e : Enemy) : Bool :=
  rectsOverlap bl.x bl.y bl.width bl.height e.x e.y e.config.width e.config.height

/-- Modelled from the spec: projectile-vs-defender AABB test. -/
def bulletBaseCollision (bl : Bullet) (b : Base) : Bool :=
  rectsOverlap bl.x bl.y bl.width bl.height b.x b.y b.width b.height

/-- Modelled from the spec: adversary-vs-defender (melee range) AABB
test. -/
def enemyBaseCollision (e : Enemy) (b : Base) : Bool :=
  rectsOverlap e.x e.y e.config.width e.config.height b.x b.y b.width b.height

end CollisionDetector

namespace EnemyFactory

/-- The level-1 starkent archetype configuration. -/
def starkentConfig : EnemyConfig :=
  { type := .starkent, health := 30, speed := 2,
    imagePath := "/images/starkent-the-enemy.png", width := 50, height := 50,
    canShoot := false, shootInterval := 0, level := 1,
    bulletsPerShot := none, bulletSpeed := none }

/-- The level-1 scroll archetype configuration. -/
def scrollConfig : EnemyConfig :=
  { type := .scroll, health := 30, speed := 2,
    imagePath := "/images/scroll-the-enemy.jpg", width := 50, height := 50,
    canShoot := false, shootInterval := 0, level := 1,
    bulletsPerShot := none, bulletSpeed := none }

/-- The level-1 zksyn archetype configuration. -/
def zksynConfig : EnemyConfig :=
  { type := .zksyn, health := 30, speed := 2,
    imagePath := "/images/zksyn-the-enemy.jpg", width := 50, height := 50,
    canShoot := false, shootInterval := 0, level := 1,
    bulletsPerShot := none, bulletSpeed := none }

/-- The level-1 taiko archetype configuration. -/
def taikoConfig : EnemyConfig :=
  { type := .taiko, health := 30, speed := 2,
    imagePath := "/images/taiko-the-enemy.png", width := 50, height := 50,
    canShoot := false, shootInterval := 0, level := 1,
    bulletsPerShot := none, bulletSpeed := none }

/-- The level-2 linea archetype configuration. -/
def lineaConfig : EnemyConfig :=
  { type := .linea, health := 50, speed := 3,
    imagePath := "/images/linea-the-enemy.png", width := 55, height := 55,
    canShoot := true, shootInterval := 2000, level := 2,
    bulletsPerShot := none, bulletSpeed := none }

/-- The level-2 op archetype configuration. -/
def opConfig : EnemyConfig :=
  { type := .op, health := 50, speed := 3,
    imagePath := "/images/op-the-enemy.jpg", width := 55, height := 55,
    canShoot := true, shootInterval := 2000, level := 2,
    bulletsPerShot := none, bulletSpeed := none }

/-- The level-3 arb archetype configuration. -/
def arbConfig : EnemyConfig :=
  { type := .arb, health := 100, speed := 3 / 2,
    imagePath := "/images/arb-the-enemy.jpg", width := 70, height := 70,
    canShoot := true, shootInterval := 1500, level := 3,
    bulletsPerShot := none, bulletSpeed := none }

/-- The level-3 polygon archetype configuration. -/
def polygonConfig : EnemyConfig :=
  { type := .polygon, health := 100, speed := 3 / 2,
    imagePath := "/images/polygon-the-enemy.jpg", width := 70, height := 70,
    canShoot := true, shootInterval := 1500, level := 3,
    bulletsPerShot := none, bulletSpeed := none }

/-- The per-level archetype table (static enemyConfigs of EnemyFactory),
as an association list in the source's insertion order; a level outside
1..3 has no table (the TS record lookup yields undefined). -/
def enemyConfigs : Nat → Option (List (EnemyType × EnemyConfig))
  | 1 => some [(.starkent, starkentConfig), (.scroll, scrollConfig),
               (.zksyn, zksynConfig), (.taiko, taikoConfig)]
  | 2 => some [(.linea, lineaConfig), (.op, opConfig)]
  | 3 => some [(.arb, arbConfig), (.polygon, polygonConfig)]
  | _ => none

/-- EnemyFactory.getEnemyTypesForLevel: the archetype tags of the level's
table, or the empty sequence when the level has no table. -/
def getEnemyTypesForLevel (level : Nat) : List EnemyType :=
  match enemyConfigs level with
  | some cfgs => cfgs.map Prod.fst
  | none => []

/-- EnemyFactory.createRandomEnemy: no table for the level yields no
entity; otherwise one archetype of the level's table is selected by the
random index (uniform selection in the source, supplied here by the
oracle, reduced modulo the table size). -/
def createRandomEnemy (level : Nat) (cw ch : ℚ) (o : Oracle) : Option Enemy :=
  match enemyConfigs level with
  | none => none
  | some cfgs =>
    (cfgs.get? (o.pick % cfgs.length)).map fun p => Enemy.init p.2 cw ch o.spawnY

/-- EnemyFactory.createEnemy: a specific archetype for a level; no table
or an archetype absent from the level's table yields no entity. -/
def createEnemy (type : EnemyType) (level : Nat) (cw ch : ℚ) (spawnY : ℚ) :
    Option Enemy :=
  match enemyConfigs level with
  | none => none
  | some cfgs =>
    (cfgs.find? fun p => decide (p.1 = type)).map fun p => Enemy.init p.2 cw ch spawnY

end EnemyFactory

namespace GameEngine

open CollisionDetector

/-- GameEngine constructor: a fresh engine for the given canvas, with
the caller-supplied construction time standing in for Date.now() and
the defender's construction (the Base class is not among the sources)
supplied as a value. -/
def init (b : Base) (cw ch : ℚ) (now : Int) : Engine :=
  { base := b, enemies := [], bullets := [],
    gameState :=
      { score := 0, level := 1, playerHealth := b.health,
        maxPlayerHealth := b.maxHealth, isGameOver := false, isPaused := false,
        levelStartTime := now, levelDuration := levelDurations 1 },
    canvasWidth := cw, canvasHeight := ch,
    lastSpawnTime := 0, spawnInterval := 2000 }

/-- GameEngine.nextLevel: below wave 3, increment the wave, clear both
entity collections, restart the wave clock and spawn timer at now, and
load the new wave's duration; at wave 3, set the game-over flag. -/
def nextLevel (now : Int) (s : Engine) : Engine :=
  if s.gameState.level < 3 then
    { s with
      enemies := [], bullets := [], lastSpawnTime := now,
      gameState :=
        { s.gameState with
          level := s.gameState.level + 1, levelStartTime := now,
          levelDuration := levelDurations (s.gameState.level + 1) } }
  else
    { s with gameState := { s.gameState with isGameOver := true } }

/-- GameEngine.spawnEnemies: when the time since the last spawn has
reached the stored spawn interval, append one random adversary for the
current wave (when the Factory yields one), reset the spawn timer, and
recompute the interval as max(800, 2000 − (level − 1) · 200). -/
def spawnEnemies (t : Int) (o : Oracle) (s : Engine) : Engine :=
  if s.spawnInterval ≤ t - s.lastSpawnTime then
    { s with
      enemies := s.enemies ++
        (EnemyFactory.createRandomEnemy s.gameState.level s.canvasWidth
          s.canvasHeight o).toList,
      lastSpawnTime := t,
      spawnInterval := max 800 (2000 - ((s.gameState.level : Int) - 1) * 200) }
  else s

/-- The enemies.forEach body of GameEngine.update, element by element:
move the adversary, let it shoot at the defender's current center when
ready (recording the shot timestamp), then resolve melee contact for
non-shooting archetypes — 5 damage to the defender, health mirror
refreshed, and a 100-damage hit to the adversary.  The adversary list
itself is not spliced during this pass. -/
def enemiesUpdateLoop (sm : ShootModel) (t : Int) (cw ch : ℚ) :
    List Enemy → Base → List Bullet → Int → List Enemy × Base × List Bullet × Int
  | [], b, bullets, ph => ([], b, bullets, ph)
  | e :: rest, b, bullets, ph =>
    let e1 := e.move cw ch
    let shotReady := e1.canShoot t
    let e2 := if shotReady then { e1 with lastShot := t } else e1
    let bullets1 :=
      if shotReady then bullets ++ [sm.mkBullet e2 b.getCenter] else bullets
    if !e2.config.canShoot && enemyBaseCollision e2 b then
      let b' := b.takeDamage 5
      let e3 := e2.takeDamage 100
      match enemiesUpdateLoop sm t cw ch rest b' bullets1 b'.health with
      | (restOut, bOut, bulletsOut, phOut) => (e3 :: restOut, bOut, bulletsOut, phOut)
    else
      match enemiesUpdateLoop sm t cw ch rest b bullets1 ph with
      | (restOut, bOut, bulletsOut, phOut) => (e2 :: restOut, bOut, bulletsOut, phOut)

/-- The inner enemies.forEach of the player-bullet resolution of
GameEngine.update.  The fuel is the adversary count captured when the
forEach starts; an index at or beyond the current (only-shrinking)
length is skipped, ending the pass.  On a bounding-box match the
adversary takes the bullet's damage, the element at the OUTER loop's
bullet index is spliced from the bullet list (a no-op when out of
range, as in JS), and a dead adversary is spliced and scored at
10 · level.  The loop continues over the remaining adversaries with the
same captured bullet — faithfully reproducing the source's splice-
during-iteration behavior. -/
def bulletEnemiesInner (lvl : Nat) (bullet : Bullet) (bIdx : Nat) :
    Nat → Nat → List Bullet → List Enemy → Int → List Bullet × List Enemy × Int
  | 0, _, bullets, enemies, score => (bullets, enemies, score)
  | fuel + 1, k, bullets, enemies, score =>
    if hk : k < enemies.length then
      let enemy := enemies[k]
      if bulletEnemyCollision bullet enemy then
        let enemy' := enemy.takeDamage bullet.damage
        let bullets' := bullets.eraseIdx bIdx
        let enemies' := enemies.set k enemy'
        if enemy'.isAlive then
          bulletEnemiesInner lvl bullet bIdx fuel (k + 1) bullets' enemies' score
        else
          bulletEnemiesInner lvl bullet bIdx fuel (k + 1) bullets'
            (enemies'.eraseIdx k) (score + 10 * (lvl : Int))
      else
        bulletEnemiesInner lvl bullet bIdx fuel (k + 1) bullets enemies score
    else
      (bullets, enemies, score)

/-- The outer bullets.forEach of the player-bullet resolution of
GameEngine.update: each player-owned bullet still present at its index
runs the inner adversary pass. -/
def bulletEnemiesOuter (lvl : Nat) :
    Nat → Nat → List Bullet → List Enemy → Int → List Bullet × List Enemy × Int
  | 0, _, bullets, enemies, score => (bullets, enemies, score)
  | fuel + 1, j, bullets, enemies, score =>
    if hj : j < bullets.length then
      let bullet := bullets[j]
      if bullet.isPlayerBullet then
        match bulletEnemiesInner lvl bullet j enemies.length 0 bullets enemies score with
        | (bullets', enemies', score') =>
          bulletEnemiesOuter lvl fuel (j + 1) bullets' enemies' score'
      else
        bulletEnemiesOuter lvl fuel (j + 1) bullets enemies score
    else
      (bullets, enemies, score)

/-- The bullets.forEach of the adversary-bullet-vs-defender resolution
of GameEngine.update: each adversary-owned bullet hitting the defender
applies its damage, refreshes the health mirror, is spliced out, and
sets the game-over flag when the defender's health is gone. -/
def bulletBaseLoop :
    Nat → Nat → List Bullet → Base → Int → Bool → List Bullet × Base × Int × Bool
  | 0, _, bullets, b, ph, go => (bullets, b, ph, go)
  | fuel + 1, j, bullets, b, ph, go =>
    if hj : j < bullets.length then
      let bullet := bullets[j]
      if !bullet.isPlayerBullet && bulletBaseCollision bullet b then
        let b' := b.takeDamage bullet.damage
        bulletBaseLoop fuel (j + 1) (bullets.eraseIdx j) b' b'.health
          (go || !b'.isAlive)
      else
        bulletBaseLoop fuel (j + 1) bullets b ph go
    else
      (bullets, b, ph, go)

/-- The adversary-update phase of GameEngine.update, as a state
transformer. -/
def enemiesPhase (sm : ShootModel) (t : Int) (s : Engine) : Engine :=
  match enemiesUpdateLoop sm t s.canvasWidth s.canvasHeight s.enemies s.base
      s.bullets s.gameState.playerHealth with
  | (es, b, bs, ph) =>
    { s with
      enemies := es, base := b, bullets := bs,
      gameState := { s.gameState with playerHealth := ph } }

/-- The projectile-integration phase: every bullet advances by its
velocity. -/
def moveBullets (s : Engine) : Engine :=
  { s with bullets :=
      s.bullets.map fun bl => { bl with x := bl.x + bl.vx, y := bl.y + bl.vy } }

/-- The bullet-culling phase: keep bullets inside the canvas expanded by
a 50-unit margin on every side. -/
def cullBullets (s : Engine) : Engine :=
  { s with bullets :=
      s.bullets.filter fun bl =>
        decide (-50 < bl.x) && decide (bl.x < s.canvasWidth + 50) &&
          decide (-50 < bl.y) && decide (bl.y < s.canvasHeight + 50) }

/-- The adversary-pruning phase: drop adversaries that have exited the
play bounds. -/
def pruneEnemies (s : Engine) : Engine :=
  { s with enemies := s.enemies.filter fun e => !e.isOffScreen }

/-- The player-bullet resolution phase, as a state transformer. -/
def playerBulletsPhase (s : Engine) : Engine :=
  match bulletEnemiesOuter s.gameState.level s.bullets.length 0 s.bullets
      s.enemies s.gameState.score with
  | (bs, es, sc) =>
    { s with
      bullets := bs, enemies := es,
      gameState := { s.gameState with score := sc } }

/-- The adversary-bullet resolution phase, as a state transformer. -/
def enemyBulletsPhase (s : Engine) : Engine :=
  match bulletBaseLoop s.bullets.length 0 s.bullets s.base
      s.gameState.playerHealth s.gameState.isGameOver with
  | (bs, b, ph, go) =>
    { s with
      bullets := bs, base := b,
      gameState := { s.gameState with playerHealth := ph, isGameOver := go } }

/-- The final health-mirror refresh of GameEngine.update. -/
def syncHealth (s : Engine) : Engine :=
  { s with gameState := { s.gameState with playerHealth := s.base.health } }

/-- GameEngine.update, the advance operation: a no-op while paused or
game-over; a single wave transition (and nothing else) once the wave
duration has elapsed; otherwise the spawn, adversary, projectile,
culling, pruning, collision-resolution and mirror phases in source
order.  The caller-supplied timestamp t stands for Date.now(). -/
def update (sm : ShootModel) (t : Int) (o : Oracle) (s : Engine) : Engine :=
  if s.gameState.isPaused || s.gameState.isGameOver then s
  else if s.gameState.levelDuration ≤ t - s.gameState.levelStartTime then
    nextLevel t s
  else
    syncHealth (enemyBulletsPhase (playerBulletsPhase (pruneEnemies
      (cullBullets (moveBullets (enemiesPhase sm t (spawnEnemies t o s)))))))

/-- GameEngine.shoot: unconditionally append one player-owned bullet at
the defender's center with velocity (8, 0), size 10 × 10 and damage
20. -/
def shoot (s : Engine) : Engine :=
  { s with bullets := s.bullets ++
      [{ x := s.base.getCenter.x, y := s.base.getCenter.y, vx := 8, vy := 0,
         width := 10, height := 10, isPlayerBullet := true, damage := 20 }] }

/-- GameEngine.reset: reinitialize the defender, clear both collections,
restore the wave-1 GameState defaults with a fresh wave-start
timestamp, and reset the spawn timer — the stored spawn interval is not
touched. -/
def reset (b : Base) (now : Int) (s : Engine) : Engine :=
  { s with
    base := b, enemies := [], bullets := [],
    gameState :=
      { score := 0, level := 1, playerHealth := b.health,
        maxPlayerHealth := b.maxHealth, isGameOver := false, isPaused := false,
        levelStartTime := now, levelDuration := levelDurations 1 },
    lastSpawnTime := now }

end GameEngine

open GameEngine EnemyFactory CollisionDetector

/-- A placeholder adversary projectile used to instantiate the abstract
shoot model on concrete states (no concrete state below lets an
adversary shoot, so its fields are never consumed). -/
def dummyBullet : Bullet :=
  { x := 0, y := 0, vx := 0, vy := 0, width := 0, height := 0,
    isPlayerBullet := false, damage := 0 }

/-- A concrete instantiation of the abstract adversary shoot model. -/
def smW : ShootModel :=
  { mkBullet := fun _ _ => dummyBullet }

/-- A concrete randomness oracle. -/
def oW : Oracle :=
  { pick := 0, spawnY := 0 }

/-- A concrete defender for the concrete engine states below. -/
def baseW : Base :=
  { x := 50, y := 275, width := 50, height := 50, health := 100,
    maxHealth := 100, speed := 5 }

/-- A freshly constructed engine on an 800 × 600 canvas at time 0. -/
def sW : Engine :=
  GameEngine.init baseW 800 600 0

/-- The fresh engine with the paused flag set. -/
def sPausedW : Engine :=
  { sW with gameState := { sW.gameState with isPaused := true } }

/-- A live level-1 melee adversary overlapping the defender baseW. -/
def eMelee : Enemy :=
  { config := starkentConfig, x := 80, y := 280, lastShot := 0, health := 30 }

/-- A playing, mid-wave engine state holding the single melee adversary
eMelee in contact with the defender: the concrete input exhibiting the
melee-elimination defect. -/
def cex4 : Engine :=
  { base := baseW, enemies := [eMelee], bullets := [],
    gameState :=
      { score := 0, level := 1, playerHealth := 100, maxPlayerHealth := 100,
        isGameOver := false, isPaused := false, levelStartTime := 0,
        levelDuration := 30000 },
    canvasWidth := 800, canvasHeight := 600, lastSpawnTime := 1000,
    spawnInterval := 2000 }

/-- A player bullet overlapping both adversaries of cex3. -/
def b1 : Bullet :=
  { x := 100, y := 100, vx := 8, vy := 0, width := 10, height := 10,
    isPlayerBullet := true, damage := 20 }

/-- A player bullet far away from every adversary of cex3. -/
def b2 : Bullet :=
  { b1 with x := 500 }

/-- A level-1 adversary (health 30) overlapping bullet b1. -/
def e1 : Enemy :=
  { config := starkentConfig, x := 95, y := 95, lastShot := 0, health := 30 }

/-- The engine state exhibiting the splice-during-iteration defect of
the player-bullet resolution: b1 overlaps both e1 copies, b2 overlaps
neither. -/
def cex3 : Engine :=
  { cex4 with bullets := [b1, b2], enemies := [e1, e1] }

namespace GameEngine

@[simp] lemma spawnEnemies_level (t : Int) (o : Oracle) (s : Engine) :
    (spawnEnemies t o s).gameState.level = s.gameState.level := by
  unfold spawnEnemies; split <;> rfl

@[simp] lemma spawnEnemies_score (t : Int) (o : Oracle) (s : Engine) :
    (spawnEnemies t o s).gameState.score = s.gameState.score := by
  unfold spawnEnemies; split <;> rfl

@[simp] lemma enemiesPhase_level (sm : ShootModel) (t : Int) (s : Engine) :
    (enemiesPhase sm t s).gameState.level = s.gameState.level := by
  unfold enemiesPhase
  rcases enemiesUpdateLoop sm t s.canvasWidth s.canvasHeight s.enemies s.base
      s.bullets s.gameState.playerHealth with ⟨es, b, bs, ph⟩
  rfl

@[simp] lemma enemiesPhase_score (sm : ShootModel) (t : Int) (s : Engine) :
    (enemiesPhase sm t s).gameState.score = s.gameState.score := by
  unfold enemiesPhase
  rcases enemiesUpdateLoop sm t s.canvasWidth s.canvasHeight s.enemies s.base
      s.bullets s.gameState.playerHealth with ⟨es, b, bs, ph⟩
  rfl

@[simp] lemma moveBullets_gameState (s : Engine) :
    (moveBullets s).gameState = s.gameState := rfl

@[simp] lemma cullBullets_gameState (s : Engine) :
    (cullBullets s).gameState = s.gameState := rfl

@[simp] lemma pruneEnemies_gameState (s : Engine) :
    (pruneEnemies s).gameState = s.gameState := rfl

@[simp] lemma playerBulletsPhase_level (s : Engine) :
    (playerBulletsPhase s).gameState.level = s.gameState.level := by
  unfold playerBulletsPhase
  rcases bulletEnemiesOuter s.gameState.level s.bullets.length 0 s.bullets
      s.enemies s.gameState.score with ⟨bs, es, sc⟩
  rfl

@[simp] lemma enemyBulletsPhase_level (s : Engine) :
    (enemyBulletsPhase s).gameState.level = s.gameState.level := by
  unfold enemyBulletsPhase
  rcases bulletBaseLoop s.bullets.length 0 s.bullets s.base
      s.gameState.playerHealth s.gameState.isGameOver with ⟨bs, b, ph, go⟩
  rfl

@[simp] lemma enemyBulletsPhase_score (s : Engine) :
    (enemyBulletsPhase s).gameState.score = s.gameState.score := by
  unfold enemyBulletsPhase
  rcases bulletBaseLoop s.bullets.length 0 s.bullets s.base
      s.gameState.playerHealth s.gameState.isGameOver with ⟨bs, b, ph, go⟩
  rfl

@[simp] lemma syncHealth_level (s : Engine) :
    (syncHealth s).gameState.level = s.gameState.level := rfl

@[simp] lemma syncHealth_score (s : Engine) :
    (syncHealth s).gameState.score = s.gameState.score := rfl

/-- The advance operation either preserves the wave index or, below wave
3, increments it by one. -/
lemma update_level (sm : ShootModel) (t : Int) (o : Oracle) (s : Engine) :
    (update sm t o s).gameState.level = s.gameState.level ∨
      (s.gameState.level < 3 ∧
        (update sm t o s).gameState.level = s.gameState.level + 1) := by
  unfold update
  split
  · left; rfl
  · split
    · unfold nextLevel
      split
      · right; exact ⟨by assumption, rfl⟩
      · left; rfl
    · left; simp

/-- Score accounting of the inner adversary pass: the adversary list can
only shrink, and the score grows by exactly 10 · level per adversary
removed. -/
lemma bulletEnemiesInner_score (lvl : Nat) (bullet : Bullet) (bIdx : Nat) :
    ∀ (fuel k : Nat) (bullets : List Bullet) (enemies : List Enemy) (score : Int),
      (bulletEnemiesInner lvl bullet bIdx fuel k bullets enemies score).2.1.length ≤
          enemies.length ∧
        (bulletEnemiesInner lvl bullet bIdx fuel k bullets enemies score).2.2 =
          score + 10 * (lvl : Int) *
            ((enemies.length : Int) -
              ((bulletEnemiesInner lvl bullet bIdx fuel k bullets enemies
                  score).2.1.length : Int)) := by
  intro fuel
  induction fuel with
  | zero =>
    intro k bullets enemies score
    simp [bulletEnemiesInner]
  | succ fuel ih =>
    intro k bullets enemies score
    rw [bulletEnemiesInner]
    split
    · rename_i hk
      dsimp only
      split
      · split
        · have h := ih (k + 1) (bullets.eraseIdx bIdx)
            (enemies.set k ((enemies[k]).takeDamage bullet.damage)) score
          rw [List.length_set] at h
          exact h
        · have h := ih (k + 1) (bullets.eraseIdx bIdx)
            ((enemies.set k ((enemies[k]).takeDamage bullet.damage)).eraseIdx k)
            (score + 10 * (lvl : Int))
          have hlen : ((enemies.set k
              ((enemies[k]).takeDamage bullet.damage)).eraseIdx k).length =
              enemies.length - 1 := by
            rw [List.length_eraseIdx_of_lt (by simpa using hk), List.length_set]
          rw [hlen] at h
          obtain ⟨h1, h2⟩ := h
          refine ⟨by omega, ?_⟩
          rw [h2]
          have hc : ((enemies.length - 1 : Nat) : Int) = (enemies.length : Int) - 1 := by
            omega
          rw [hc]
          ring
      · exact ih (k + 1) bullets enemies score
    · simp

/-- Score accounting of the outer player-bullet pass, inherited from the
inner pass. -/
lemma bulletEnemiesOuter_score (lvl : Nat) :
    ∀ (fuel j : Nat) (bullets : List Bullet) (enemies : List Enemy) (score : Int),
      (bulletEnemiesOuter lvl fuel j bullets enemies score).2.1.length ≤
          enemies.length ∧
        (bulletEnemiesOuter lvl fuel j bullets enemies score).2.2 =
          score + 10 * (lvl : Int) *
            ((enemies.length : Int) -
              ((bulletEnemiesOuter lvl fuel j bullets enemies
                  score).2.1.length : Int)) := by
  intro fuel
  induction fuel with
  | zero =>
    intro j bullets enemies score
    simp [bulletEnemiesOuter]
  | succ fuel ih =>
    intro j bullets enemies score
    rw [bulletEnemiesOuter]
    split
    · dsimp only
      split
      · rename_i hj hp
        have hin := bulletEnemiesInner_score lvl bullets[j] j enemies.length 0
          bullets enemies score
        rcases hmatch : bulletEnemiesInner lvl bullets[j] j enemies.length 0
            bullets enemies score with ⟨bullets', enemies', score'⟩
        rw [hmatch] at hin
        dsimp only at hin ⊢
        obtain ⟨hin1, hin2⟩ := hin
        obtain ⟨hout1, hout2⟩ :=
          ih (j + 1) bullets' enemies' score'
        set F := (bulletEnemiesOuter lvl fuel (j + 1) bullets' enemies'
          score').2.1.length with hF
        refine ⟨le_trans hout1 hin1, ?_⟩
        rw [hout2, hin2]
        ring
      · exact ih (j + 1) bullets enemies score
    · simp

/-- The player-bullet resolution phase only removes adversaries and pays
exactly 10 · level score per removal. -/
lemma playerBulletsPhase_spec (s : Engine) :
    (playerBulletsPhase s).enemies.length ≤ s.enemies.length ∧
      (playerBulletsPhase s).gameState.score =
        s.gameState.score + 10 * (s.gameState.level : Int) *
          ((s.enemies.length : Int) -
            ((playerBulletsPhase s).enemies.length : Int)) := by
  unfold playerBulletsPhase
  have h := bulletEnemiesOuter_score s.gameState.level s.bullets.length 0
    s.bullets s.enemies s.gameState.score
  rcases hm : bulletEnemiesOuter s.gameState.level s.bullets.length 0 s.bullets
      s.enemies s.gameState.score with ⟨bs, es, sc⟩
  rw [hm] at h
  simpa using h

end GameEngine

/-- C1: in a playing engine, while the elapsed time since wave start is
strictly below the current wave duration the advance operation leaves
the wave index unchanged; once the elapsed time reaches the duration it
performs exactly one transition that tick — below wave 3 it increments
the wave, clears the adversary and projectile collections, resets the
wave-start timestamp and spawn timer to now, loads the new wave's
duration and performs no further processing; at wave 3 it only sets the
game-over flag.  The duration table is 30000 ms, 60000 ms and 40000 ms
for waves 1, 2 and 3. -/
theorem c1_wave_transition (sm : ShootModel) (t : Int) (o : Oracle) (s : Engine) :
    (t - s.gameState.levelStartTime < s.gameState.levelDuration →
      (update sm t o s).gameState.level = s.gameState.level) ∧
    (s.gameState.isPaused = false → s.gameState.isGameOver = false →
      s.gameState.levelDuration ≤ t - s.gameState.levelStartTime →
      s.gameState.level < 3 →
      update sm t o s =
        { s with
          enemies := [], bullets := [], lastSpawnTime := t,
          gameState :=
            { s.gameState with
              level := s.gameState.level + 1, levelStartTime := t,
              levelDuration := levelDurations (s.gameState.level + 1) } }) ∧
    (s.gameState.isPaused = false → s.gameState.isGameOver = false →
      s.gameState.levelDuration ≤ t - s.gameState.levelStartTime →
      s.gameState.level = 3 →
      update sm t o s =
        { s with gameState := { s.gameState with isGameOver := true } }) ∧
    levelDurations 1 = 30000 ∧ levelDurations 2 = 60000 ∧
    levelDurations 3 = 40000 := by
  refine ⟨?_, ?_, ?_, rfl, rfl, rfl⟩
  · intro h
    unfold update
    split
    · rfl
    · rw [if_neg (by omega)]
      simp
  · intro h1 h2 h3 h4
    unfold update
    rw [h1, h2]
    rw [if_neg (by simp), if_pos h3]
    unfold nextLevel
    rw [if_pos h4]
  · intro h1 h2 h3 h4
    unfold update
    rw [h1, h2]
    rw [if_neg (by simp), if_pos h3]
    unfold nextLevel
    rw [if_neg (by omega)]

/-- Witness for C1: a fresh playing engine advanced exactly at the
wave-1 duration boundary performs the wave-2 transition. -/
theorem c1_witness :
    update smW 30000 oW sW =
      { sW with
        enemies := [], bullets := [], lastSpawnTime := 30000,
        gameState :=
          { sW.gameState with
            level := sW.gameState.level + 1, levelStartTime := 30000,
            levelDuration := levelDurations (sW.gameState.level + 1) } } :=
  (c1_wave_transition smW 30000 oW sW).2.1 rfl rfl (by decide) (by decide)

/-- C2: while the paused or game-over flag is set, one advance
invocation leaves the whole engine state — every entity and every
GameState field — unchanged, and repeating the invocation changes
nothing further. -/
theorem c2_pause_noop (sm : ShootModel) (t : Int) (o : Oracle) (s : Engine)
    (h : s.gameState.isPaused = true ∨ s.gameState.isGameOver = true) :
    update sm t o s = s ∧ update sm t o (update sm t o s) = s := by
  have h1 : update sm t o s = s := by
    unfold update
    rcases h with h | h <;> rw [h] <;> simp
  exact ⟨h1, by rw [h1, h1]⟩

/-- Witness for C2: the paused fresh engine is untouched by two advance
invocations. -/
theorem c2_witness :
    update smW 5 oW sPausedW = sPausedW ∧
      update smW 5 oW (update smW 5 oW sPausedW) = sPausedW :=
  c2_pause_noop smW 5 oW sPausedW (Or.inl rfl)

/-- C3 (defect exhibited): in the concrete state cex3 the player bullet
b1 overlaps both adversaries and b2 overlaps neither; after the
player-bullet resolution BOTH adversaries have taken b1's 20 damage
(health 30 → 10 each) even though b1 was consumed by its first match,
and the unrelated bullet b2 has also vanished — spliced at b1's index —
so the claim that a consumed projectile deals no damage to remaining
adversaries fails on the code. -/
theorem c3_projectile_multihit :
    (playerBulletsPhase cex3).bullets = [] ∧
    (playerBulletsPhase cex3).enemies.map Enemy.health = [10, 10] ∧
    (playerBulletsPhase cex3).gameState.score = 0 := by
  decide

/-- C4 (defect exhibited): in the concrete state cex4 a melee adversary
overlaps the defender; the tick applies the 5-damage hit (health
100 → 95) and the 100-damage strike leaves the adversary at health −70,
but the adversary is NOT removed from the live collection that tick —
and on the next tick the same dead adversary deals another 5 damage
(health 95 → 90). -/
theorem c4_melee_not_removed :
    (update smW 1000 oW cex4).base.health = 95 ∧
    (update smW 1000 oW cex4).enemies.map Enemy.health = [-70] ∧
    (update smW 1001 oW (update smW 1000 oW cex4)).base.health = 90 ∧
    (update smW 1001 oW (update smW 1000 oW cex4)).enemies.length = 1 := by
  decide

/-- C5: the player-bullet resolution phase increases the score by
exactly 10 · wave per adversary it eliminates (it never adds
adversaries), while a wave transition and the bounds-exit pruning phase
leave the score unchanged — adversaries cleared by a transition or
removed for leaving the play bounds contribute 0. -/
theorem c5_score_accounting (s s2 : Engine) (now : Int) :
    (playerBulletsPhase s).enemies.length ≤ s.enemies.length ∧
    (playerBulletsPhase s).gameState.score =
      s.gameState.score + 10 * (s.gameState.level : Int) *
        ((s.enemies.length : Int) - ((playerBulletsPhase s).enemies.length : Int)) ∧
    (nextLevel now s2).gameState.score = s2.gameState.score ∧
    (pruneEnemies s2).gameState.score = s2.gameState.score := by
  refine ⟨(playerBulletsPhase_spec s).1, (playerBulletsPhase_spec s).2, ?_, rfl⟩
  unfold nextLevel
  split <;> rfl

/-- C6: whenever a spawn fires, the recomputed spawn interval equals
max(800, 2000 − (wave − 1) · 200) ms, a function of the wave index
alone — hence the same after the n-th spawn of a wave for every n. -/
theorem c6_spawn_interval (t : Int) (o : Oracle) (s : Engine)
    (h : s.spawnInterval ≤ t - s.lastSpawnTime) :
    (spawnEnemies t o s).spawnInterval =
      max 800 (2000 - ((s.gameState.level : Int) - 1) * 200) := by
  unfold spawnEnemies
  rw [if_pos h]

/-- Witness for C6: the fresh engine's first spawn at t = 2000
recomputes the wave-1 interval, 2000 ms. -/
theorem c6_witness :
    (spawnEnemies 2000 oW sW).spawnInterval =
        max 800 (2000 - ((sW.gameState.level : Int) - 1) * 200) ∧
      (spawnEnemies 2000 oW sW).spawnInterval = 2000 :=
  ⟨c6_spawn_interval 2000 oW sW (by decide), by decide⟩

/-- C7: the wave index is 1 at construction and after reset, and every
operation keeps it in {1, 2, 3} — the only increment (in nextLevel) is
guarded by the index being strictly below 3. -/
theorem c7_wave_invariant (b b' : Base) (cw ch : ℚ) (now t : Int)
    (sm : ShootModel) (o : Oracle) (s : Engine)
    (h1 : 1 ≤ s.gameState.level) (h2 : s.gameState.level ≤ 3) :
    (GameEngine.init b cw ch now).gameState.level = 1 ∧
    (reset b' now s).gameState.level = 1 ∧
    (1 ≤ (update sm t o s).gameState.level ∧
      (update sm t o s).gameState.level ≤ 3) ∧
    (1 ≤ (nextLevel now s).gameState.level ∧
      (nextLevel now s).gameState.level ≤ 3) ∧
    (1 ≤ (shoot s).gameState.level ∧ (shoot s).gameState.level ≤ 3) := by
  refine ⟨rfl, rfl, ?_, ?_, ?_⟩
  · rcases update_level sm t o s with h | ⟨hlt, h⟩ <;> rw [h] <;> omega
  · unfold nextLevel
    split
    · rename_i hl
      dsimp only
      omega
    · dsimp only
      omega
  · exact ⟨h1, h2⟩

/-- Witness for C7: the invariant instantiated on the fresh engine. -/
theorem c7_witness :
    (GameEngine.init baseW 800 600 0).gameState.level = 1 ∧
    (reset baseW 0 sW).gameState.level = 1 ∧
    (1 ≤ (update smW 5 oW sW).gameState.level ∧
      (update smW 5 oW sW).gameState.level ≤ 3) ∧
    (1 ≤ (nextLevel 0 sW).gameState.level ∧
      (nextLevel 0 sW).gameState.level ≤ 3) ∧
    (1 ≤ (shoot sW).gameState.level ∧ (shoot sW).gameState.level ≤ 3) :=
  c7_wave_invariant baseW baseW 800 600 0 5 smW oW sW (by decide) (by decide)

/-- C8: a wave index with no configured archetype table yields the empty
tag list and no random entity, and a specific-archetype request for a
wave the archetype does not belong to yields no entity — the factory
operations are total and never raise. -/
theorem c8_factory_absence (level : Nat) (ty : EnemyType) (cw ch spawnY : ℚ)
    (o : Oracle) :
    (EnemyFactory.enemyConfigs level = none →
      EnemyFactory.getEnemyTypesForLevel level = [] ∧
        EnemyFactory.createRandomEnemy level cw ch o = none) ∧
    (ty ∉ EnemyFactory.getEnemyTypesForLevel level →
      EnemyFactory.createEnemy ty level cw ch spawnY = none) := by
  constructor
  · intro h
    constructor
    · unfold EnemyFactory.getEnemyTypesForLevel
      rw [h]
    · unfold EnemyFactory.createRandomEnemy
      rw [h]
  · intro h
    unfold EnemyFactory.createEnemy
    cases hc : EnemyFactory.enemyConfigs level with
    | none => rfl
    | some cfgs =>
      have hfind : cfgs.find? (fun p => decide (p.1 = ty)) = none := by
        rw [List.find?_eq_none]
        intro p hp
        simp only [decide_eq_true_eq]
        intro hpt
        apply h
        unfold EnemyFactory.getEnemyTypesForLevel
        rw [hc]
        exact List.mem_map.mpr ⟨p, hp, hpt⟩
      dsimp only
      rw [hfind]
      rfl

/-- Witness for C8: wave 4 has no table, and the level-2 archetype linea
is refused at level 1. -/
theorem c8_witness :
    (EnemyFactory.getEnemyTypesForLevel 4 = [] ∧
      EnemyFactory.createRandomEnemy 4 800 600 oW = none) ∧
    EnemyFactory.createEnemy EnemyType.linea 1 800 600 0 = none := by
  have h := c8_factory_absence 4 EnemyType.linea 800 600 0 oW
  exact ⟨h.1 rfl, h.2 (by decide)⟩

/-- C9: in every engine state — the paused and game-over states
included, since the operation has no guard — one fire invocation
appends exactly one player-owned bullet at the defender's center with
the fixed velocity (8, 0), size 10 × 10 and damage 20, and changes no
other engine state. -/
theorem c9_fire_unconditional (s : Engine) :
    (shoot s).bullets = s.bullets ++
      [{ x := s.base.getCenter.x, y := s.base.getCenter.y, vx := 8, vy := 0,
         width := 10, height := 10, isPlayerBullet := true, damage := 20 }] ∧
    (shoot s).base = s.base ∧ (shoot s).enemies = s.enemies ∧
    (shoot s).gameState = s.gameState ∧
    (shoot s).canvasWidth = s.canvasWidth ∧
    (shoot s).canvasHeight = s.canvasHeight ∧
    (shoot s).lastSpawnTime = s.lastSpawnTime ∧
    (shoot s).spawnInterval = s.spawnInterval :=
  ⟨rfl, rfl, rfl, rfl, rfl, rfl, rfl, rfl⟩

/-- C10: neither a wave transition nor a full reset touches the stored
spawn interval, and while the spawn gate (measured against that stored
interval) has not fired the spawn phase changes nothing — so the first
spawn of a new wave or game is gated by the previously computed
interval, and the new wave's formula value only takes effect when that
spawn recomputes it. -/
theorem c10_spawn_interval_persistence (s : Engine) (b : Base) (now t : Int)
    (o : Oracle) :
    (nextLevel now s).spawnInterval = s.spawnInterval ∧
    (reset b now s).spawnInterval = s.spawnInterval ∧
    (t - s.lastSpawnTime < s.spawnInterval → spawnEnemies t o s = s) := by
  refine ⟨?_, rfl, ?_⟩
  · unfold nextLevel
    split <;> rfl
  · intro h
    unfold spawnEnemies
    rw [if_neg (by omega)]

/-- Witness for C10: transition and reset on the fresh engine keep the
2000 ms interval, and an advance before the gate leaves the spawn state
alone. -/
theorem c10_witness :
    (nextLevel 0 sW).spawnInterval = sW.spawnInterval ∧
    (reset baseW 0 sW).spawnInterval = sW.spawnInterval ∧
    spawnEnemies 1000 oW sW = sW := by
  have h := c10_spawn_interval_persistence sW baseW 0 1000 oW
  exact ⟨h.1, h.2.1, h.2.2 (by decide)⟩

end Shooter
